import Mathlib

/-!
Verification of the view/controller in `theZoo_gui.py` (class `TheZooGUI`).

The GUI is embedded shallowly as a pure state machine:

* `GuiState` collects the widget state the class owns: the in-memory row
  cache `malware_rows`, the Treeview contents `tree` (a list of
  item-id/row pairs, in display order), the current Treeview `selection`
  (a list of item ids), the filter entry text `search_var`, the status
  line `status_var`, and the detail-button state `details_button_enabled`.
* Database calls (`db.get_partial_details`, `db.get_mal_info`) are passed
  in as `Except`/function parameters; a Python exception is the `.error`
  case, carrying `str(exc)`.
* `messagebox.showerror` / `messagebox.showinfo` calls are collected in a
  list of `Effect`s returned alongside the new state.

Python string primitives used by the code (`str.lower`, `str.strip`,
substring `in`, `str(...)` of an `int`, `int(...)` of a string) are
modelled by executable functions over `List Char`; lowering is ASCII
lowering (`Char.toLower`), which agrees with Python on the ASCII strings
the application handles.
-/

namespace TheZooGui

/-- Model of Python `s.lower()` (ASCII lowering, applied characterwise). -/
def pyLower (s : String) : String :=
  String.mk (s.data.map Char.toLower)

/-- Model of Python `s.strip()`: drop whitespace from both ends. -/
def pyStrip (s : String) : String :=
  String.mk (((s.data.dropWhile Char.isWhitespace).reverse.dropWhile
    Char.isWhitespace).reverse)

/-- `inChars t s` models Python `t in s` on the character lists: `t`
occurs as a contiguous segment of `s`. -/
def inChars (t : List Char) : List Char → Bool
  | [] => t.isEmpty
  | c :: rest => List.isPrefixOf t (c :: rest) || inChars t rest

/-- Model of Python `t in s` for strings (substring containment). -/
def pyIn (t s : String) : Bool :=
  inChars t.data s.data

/-- Little-endian decimal digits of `n`, with explicit fuel so that the
recursion is structural (`fuel ≥ n` suffices). -/
def natDigitsRev (fuel n : Nat) : List Char :=
  match fuel with
  | 0 => []
  | f + 1 => if n = 0 then [] else Char.ofNat (48 + n % 10) :: natDigitsRev f (n / 10)

/-- Model of Python `str(n)` for a natural number. -/
def pyStrOfNat (n : Nat) : String :=
  if n = 0 then "0" else String.mk ((natDigitsRev n n).reverse)

/-- Model of Python `str(n)` for an integer. -/
def pyStrOfInt (n : Int) : String :=
  if n < 0 then "-" ++ pyStrOfNat n.natAbs else pyStrOfNat n.natAbs

/-- Is `c` an ASCII decimal digit? -/
def isDigitCh (c : Char) : Bool :=
  48 ≤ c.toNat && c.toNat ≤ 57

/-- Value of a little-endian list of decimal digit characters. -/
def valOfRevDigits : List Char → Nat
  | [] => 0
  | c :: rest => (c.toNat - 48) + 10 * valOfRevDigits rest

/-- Model of Python `int(s)` on the canonical decimal forms produced by
`str` of an `int` (an optional `-` sign followed by digits); other
accepted Python spellings (leading `+`, surrounding whitespace,
underscores) do not arise from Treeview item ids and are rejected. -/
def pyIntOfStr (s : String) : Option Int :=
  if s.data.head? = some '-' then
    if s.data.tail ≠ [] ∧ s.data.tail.all isDigitCh then
      some (-(valOfRevDigits s.data.tail.reverse : Int))
    else none
  else
    if s.data ≠ [] ∧ s.data.all isDigitCh then
      some ((valOfRevDigits s.data.reverse : Nat) : Int)
    else none

/-- A partial row as returned by `db.get_partial_details()`:
`(id, type, language, architecture, platform, name)`. -/
structure Row where
  id : Int
  mal_type : String
  language : String
  architecture : String
  platform : String
  name : String
deriving DecidableEq

/-- The string forms of the six fields of a row, in tuple order: Python's
`str(value)` for each `value in row` (the integer id is rendered in
decimal, the string fields are unchanged). -/
def Row.fieldStrs (r : Row) : List String :=
  [pyStrOfInt r.id, r.mal_type, r.language, r.architecture, r.platform, r.name]

/-- The filter condition of `_filter_rows`:
`any(text in str(value).lower() for value in row)`. -/
def rowMatches (text : String) (r : Row) : Bool :=
  r.fieldStrs.any (fun v => pyIn text (pyLower v))

/-- An extended detail record as returned by `db.get_mal_info(id)`:
`(type, name, version, author, language, date, architecture, platform,
tags)`, each field possibly `None` (here `none`). -/
structure Detail where
  mal_type : Option String
  name : Option String
  version : Option String
  author : Option String
  language : Option String
  date : Option String
  architecture : Option String
  platform : Option String
  tags : Option String
deriving DecidableEq

/-- Model of the Python expression `x or "N/A"` for an optional string
`x`: `None` and the empty string are falsy, any other string is itself. -/
def orNA (x : Option String) : String :=
  match x with
  | none => "N/A"
  | some s => if s = "" then "N/A" else s

/-- The widget state owned by `TheZooGUI`. -/
structure GuiState where
  malware_rows : List Row
  tree : List (String × Row)
  selection : List String
  search_var : String
  status_var : String
  details_button_enabled : Bool
deriving DecidableEq

/-- A messagebox call emitted by an operation. -/
inductive Effect where
  | showerror (title msg : String)
  | showinfo (title msg : String)
deriving DecidableEq

/-- The state right after `_build_layout`, before `_load_data` runs: empty
tree and cache, empty filter entry, status label `"Loaded 0 entries"`,
detail button disabled. -/
def initState : GuiState :=
  { malware_rows := []
    tree := []
    selection := []
    search_var := ""
    status_var := "Loaded 0 entries"
    details_button_enabled := false }

/-- `_refresh_tree(rows)`: delete all tree items (which also empties the
Treeview selection), insert each row with item id `str(row[0])`, set the
status label to `f"Loaded {len(rows)} entries"`, disable the detail
button. -/
def refresh_tree (rows : List Row) (s : GuiState) : GuiState :=
  { s with
    tree := rows.map (fun row => (pyStrOfInt row.id, row))
    selection := []
    status_var := "Loaded " ++ pyStrOfNat rows.length ++ " entries"
    details_button_enabled := false }

/-- `_load_data()`: `self.malware_rows = self.db.get_partial_details()`;
on exception, show a `Database Error` box and set the cache to `[]`; in
the `finally` block, `_refresh_tree(self.malware_rows)`. The `res`
parameter is the outcome of the database call. -/
def load_data (res : Except String (List Row)) (s : GuiState) :
    GuiState × List Effect :=
  match res with
  | Except.ok rows => (refresh_tree rows { s with malware_rows := rows }, [])
  | Except.error exc =>
      (refresh_tree [] { s with malware_rows := [] },
       [Effect.showerror "Database Error" exc])

/-- `_filter_rows(event)`: read the entry text, `strip().lower()` it; if
empty, re-render the full cache, otherwise re-render the list
comprehension over the cache. -/
def filter_rows (s : GuiState) : GuiState :=
  let text := pyLower (pyStrip s.search_var)
  if text = "" then
    refresh_tree s.malware_rows s
  else
    refresh_tree (s.malware_rows.filter (fun row => rowMatches text row)) s

/-- `_on_select(event)`: enable the detail button iff
`bool(self.tree.selection())`. -/
def on_select (s : GuiState) : GuiState :=
  { s with details_button_enabled := !s.selection.isEmpty }

/-- The nine labelled lines built by `_show_selected_details` from the
first tuple of the `get_mal_info` result. -/
def info_lines (d : Detail) : List String :=
  [ "Name: " ++ orNA d.name
  , "Type: " ++ orNA d.mal_type
  , "Version: " ++ orNA d.version
  , "Author: " ++ orNA d.author
  , "Language: " ++ orNA d.language
  , "Date: " ++ orNA d.date
  , "Architecture: " ++ orNA d.architecture
  , "Platform: " ++ orNA d.platform
  , "Tags: " ++ orNA d.tags ]

/-- The tail of `_show_selected_details` after `mal_id` has been parsed:
`result = self.db.get_mal_info(mal_id)` wrapped in `try/except`, then the
empty check and the `showinfo` of the joined lines. `res` is the outcome
of the database call. -/
def handleMalInfo (res : Except String (List Detail)) (s : GuiState) :
    GuiState × List Effect :=
  match res with
  | Except.error exc => (s, [Effect.showerror "Database Error" exc])
  | Except.ok [] =>
      (s, [Effect.showinfo "Malware Info" "No additional metadata available."])
  | Except.ok (d :: _) =>
      (s, [Effect.showinfo "Malware Info" (String.intercalate "\n" (info_lines d))])

/-- `_show_selected_details()`: return (with no effect) if the selection
is empty; otherwise `mal_id = int(selection[0])` — `none` models the
uncaught `ValueError` were the item id not numeric — then query the
database and show the outcome. -/
def show_selected_details (db : Int → Except String (List Detail))
    (s : GuiState) : Option (GuiState × List Effect) :=
  match s.selection with
  | [] => some (s, [])
  | iid :: _ =>
      match pyIntOfStr iid with
      | none => none
      | some mal_id => some (handleMalInfo (db mal_id) s)

/-- The user events the widgets can deliver to the controller: a
keystroke in the filter entry (`KeyRelease`, after which the entry holds
`text`), a Treeview selection change, and a click on the detail button
(parameterised by the database's behaviour). -/
inductive Event where
  | keystroke (text : String)
  | select (sel : List String)
  | clickDetails (db : Int → Except String (List Detail))

/-- One event-dispatch step of the controller. -/
def step (s : GuiState) (e : Event) : GuiState :=
  match e with
  | Event.keystroke text => filter_rows { s with search_var := text }
  | Event.select sel => on_select { s with selection := sel }
  | Event.clickDetails db =>
      match show_selected_details db s with
      | some (s2, _) => s2
      | none => s

/-- States reachable by the running application: the constructor calls
`_load_data` (with some database outcome) on the freshly built layout,
and every later state follows by dispatching events. -/
inductive Reachable : GuiState → Prop where
  | init : ∀ res : Except String (List Row), Reachable (load_data res initState).1
  | next : ∀ s e, Reachable s → Reachable (step s e)

/-- The rows the table should display for filter text `t` over cache
`rows`: all of them when the stripped, lowered text is empty, otherwise
those matching it. -/
def visibleRows (t : String) (rows : List Row) : List Row :=
  let text := pyLower (pyStrip t)
  if text = "" then rows else rows.filter (fun row => rowMatches text row)

/-- The displayed rows of a state: the values column of the tree items. -/
def displayed (s : GuiState) : List Row :=
  s.tree.map Prod.snd

/-- Example row 1 (used by the witnesses). -/
def rowA : Row := ⟨1, "Trojan", "C", "x86", "Win", "A"⟩

/-- Example row 2 (used by the witnesses). -/
def rowB : Row := ⟨2, "Worm", "Python", "x64", "Linux", "B"⟩

/-- Example detail record whose `author` field is `None`. -/
def dAuthorNone : Detail :=
  ⟨some "Worm", some "B", some "1.0", none, some "Python",
   some "2020-01-01", some "x64", some "Linux", some "worm"⟩

/-- A database whose `get_mal_info` always returns an empty sequence. -/
def dbEmpty : Int → Except String (List Detail) := fun _ => Except.ok []

/-- Example state: two cached rows, filter text `"linux"`. -/
def stLinux : GuiState :=
  { malware_rows := [rowA, rowB], tree := [], selection := [],
    search_var := "linux", status_var := "Loaded 2 entries",
    details_button_enabled := false }

/-- Example state whose filter text is whitespace only. -/
def stBlank : GuiState :=
  { stLinux with search_var := "   " }

/-- Example state with the row of id 1 selected. -/
def stSel1 : GuiState :=
  { stLinux with selection := ["1"], search_var := "" }

/-- Example state with two rows selected, the row of id 2 first. -/
def stSel2 : GuiState :=
  { stLinux with selection := ["2", "1"], search_var := "" }

/-- Example reachable state: load two rows, then type `"linux"` in the
filter entry. -/
def stReach : GuiState :=
  step (load_data (Except.ok [rowA, rowB]) initState).1 (Event.keystroke "linux")

theorem digitChar_toNat {d : Nat} (h : d < 10) :
    (Char.ofNat (48 + d)).toNat = 48 + d := by
  interval_cases d <;> decide

theorem isDigitCh_digitChar {d : Nat} (h : d < 10) :
    isDigitCh (Char.ofNat (48 + d)) = true := by
  interval_cases d <;> decide

theorem valOfRevDigits_natDigitsRev :
    ∀ fuel n : Nat, n ≤ fuel → valOfRevDigits (natDigitsRev fuel n) = n := by
  intro fuel
  induction fuel with
  | zero =>
      intro n hn
      interval_cases n
      rfl
  | succ f ih =>
      intro n hn
      by_cases h0 : n = 0
      · subst h0; simp [natDigitsRev, valOfRevDigits]
      · have hdiv : n / 10 ≤ f := by
          have : n / 10 < n := Nat.div_lt_self (Nat.pos_of_ne_zero h0) (by norm_num)
          omega
        have hm : n % 10 < 10 := Nat.mod_lt _ (by norm_num)
        simp only [natDigitsRev, if_neg h0, valOfRevDigits]
        rw [ih _ hdiv, digitChar_toNat hm]
        omega

theorem natDigitsRev_all_digits :
    ∀ fuel n : Nat, (natDigitsRev fuel n).all isDigitCh = true := by
  intro fuel
  induction fuel with
  | zero => intro n; rfl
  | succ f ih =>
      intro n
      by_cases h0 : n = 0
      · subst h0; rfl
      · have hm : n % 10 < 10 := Nat.mod_lt _ (by norm_num)
        simp only [natDigitsRev, if_neg h0, List.all_cons, ih, Bool.and_true,
          isDigitCh_digitChar hm]

theorem natDigitsRev_ne_nil {f n : Nat} (h : n ≠ 0) : natDigitsRev (f + 1) n ≠ [] := by
  simp [natDigitsRev, if_neg h]

theorem pyStrOfNat_data (n : Nat) (h : n ≠ 0) :
    (pyStrOfNat n).data = (natDigitsRev n n).reverse := by
  simp [pyStrOfNat, if_neg h]

theorem pyStrOfNat_data_all (n : Nat) : (pyStrOfNat n).data.all isDigitCh = true := by
  by_cases h : n = 0
  · subst h; decide
  · rw [pyStrOfNat_data n h]
    rw [List.all_eq_true] at *
    intro c hc
    have := natDigitsRev_all_digits n n
    rw [List.all_eq_true] at this
    exact this c (List.mem_reverse.mp hc)

theorem pyStrOfNat_data_ne_nil (n : Nat) : (pyStrOfNat n).data ≠ [] := by
  by_cases h : n = 0
  · subst h; decide
  · rw [pyStrOfNat_data n h]
    simp only [ne_eq, List.reverse_eq_nil_iff]
    cases n with
    | zero => exact absurd rfl h
    | succ m => exact natDigitsRev_ne_nil h

theorem valOfRevDigits_pyStrOfNat (n : Nat) :
    valOfRevDigits (pyStrOfNat n).data.reverse = n := by
  by_cases h : n = 0
  · subst h; decide
  · rw [pyStrOfNat_data n h, List.reverse_reverse]
    exact valOfRevDigits_natDigitsRev n n le_rfl

theorem pyIntOfStr_pyStrOfNat (n : Nat) : pyIntOfStr (pyStrOfNat n) = some (n : Int) := by
  have hall := pyStrOfNat_data_all n
  have hne := pyStrOfNat_data_ne_nil n
  have hhead : (pyStrOfNat n).data.head? ≠ some '-' := by
    cases hd : (pyStrOfNat n).data with
    | nil => exact absurd hd hne
    | cons c rest =>
        simp only [List.head?_cons, ne_eq, Option.some.injEq]
        intro hc
        rw [List.all_eq_true] at hall
        have := hall c (by rw [hd]; exact List.mem_cons_self c rest)
        rw [hc] at this
        exact absurd this (by decide)
  rw [pyIntOfStr, if_neg hhead, if_pos ⟨hne, hall⟩, valOfRevDigits_pyStrOfNat]

theorem pyIntOfStr_pyStrOfInt (n : Int) : pyIntOfStr (pyStrOfInt n) = some n := by
  cases n with
  | ofNat m =>
      have hlt : ¬ ((Int.ofNat m) < 0) := not_lt.mpr (Int.ofNat_nonneg m)
      rw [pyStrOfInt, if_neg hlt]
      simpa using pyIntOfStr_pyStrOfNat m
  | negSucc m =>
      have hlt : (Int.negSucc m) < 0 := Int.negSucc_lt_zero m
      rw [pyStrOfInt, if_pos hlt]
      have hdata : ("-" ++ pyStrOfNat (Int.negSucc m).natAbs).data =
          '-' :: (pyStrOfNat (m + 1)).data := by
        rw [String.data_append]; rfl
      rw [pyIntOfStr, hdata]
      simp only [List.head?_cons, List.tail_cons]
      rw [if_pos trivial,
        if_pos ⟨pyStrOfNat_data_ne_nil (m + 1), pyStrOfNat_data_all (m + 1)⟩,
        valOfRevDigits_pyStrOfNat]
      simp [Int.negSucc_eq]

theorem handleMalInfo_fst (res : Except String (List Detail)) (s : GuiState) :
    (handleMalInfo res s).1 = s := by
  cases res with
  | error e => rfl
  | ok l => cases l <;> rfl

theorem show_selected_details_fst (db : Int → Except String (List Detail))
    (s : GuiState) (p : GuiState × List Effect)
    (h : show_selected_details db s = some p) : p.1 = s := by
  unfold show_selected_details at h
  split at h
  · rw [← Option.some.inj h]
  · split at h
    · exact Option.noConfusion h
    · rw [← Option.some.inj h]
      exact handleMalInfo_fst _ _

theorem refresh_tree_search_var (rows : List Row) (s : GuiState) :
    (refresh_tree rows s).search_var = s.search_var := rfl

theorem refresh_tree_malware_rows (rows : List Row) (s : GuiState) :
    (refresh_tree rows s).malware_rows = s.malware_rows := rfl

theorem filter_rows_malware_rows (s : GuiState) :
    (filter_rows s).malware_rows = s.malware_rows := by
  simp only [filter_rows]
  split <;> rfl

theorem filter_rows_search_var (s : GuiState) :
    (filter_rows s).search_var = s.search_var := by
  simp only [filter_rows]
  split <;> rfl

theorem filter_rows_tree (s : GuiState) :
    (filter_rows s).tree =
      (visibleRows s.search_var s.malware_rows).map
        (fun row => (pyStrOfInt row.id, row)) := by
  simp only [filter_rows, visibleRows]
  split <;> rfl

theorem map_snd_pairs (rows : List Row) :
    (rows.map (fun row => (pyStrOfInt row.id, row))).map Prod.snd = rows := by
  induction rows with
  | nil => rfl
  | cons r rest ih => simp only [List.map_cons, ih]

theorem displayed_filter_rows (s : GuiState) :
    displayed (filter_rows s) = visibleRows s.search_var s.malware_rows := by
  rw [displayed, filter_rows_tree, map_snd_pairs]

theorem reachable_tree (s : GuiState) (h : Reachable s) :
    s.tree = (visibleRows s.search_var s.malware_rows).map
      (fun row => (pyStrOfInt row.id, row)) := by
  induction h with
  | init res =>
      have hempty : pyLower (pyStrip "") = "" := by decide
      cases res with
      | ok rows => simp [load_data, initState, refresh_tree, visibleRows, hempty]
      | error e => simp [load_data, initState, refresh_tree, visibleRows, hempty]
  | next s e hr ih =>
      cases e with
      | keystroke text =>
          simp only [step]
          rw [filter_rows_tree, filter_rows_search_var, filter_rows_malware_rows]
      | select sel =>
          simpa [step, on_select] using ih
      | clickDetails db =>
          simp only [step]
          cases hsd : show_selected_details db s with
          | none => exact ih
          | some p =>
              cases p with
              | mk s2 effs =>
                  have h2 : s2 = s := show_selected_details_fst db s (s2, effs) hsd
                  subst h2
                  exact ih

theorem inChars_nil_left (l : List Char) : inChars [] l = true := by
  induction l with
  | nil => rfl
  | cons c rest ih => simp [inChars, List.isPrefixOf, ih]

theorem pyIn_empty_needle (v : String) : pyIn "" v = true :=
  inChars_nil_left v.data

/-- C1: for every non-empty filter text, `_filter_rows` displays exactly
the cached rows for which the stripped, lowered text occurs in the
lowered string form of at least one field, in cache order (the displayed
list is the `List.filter` of the cache and a sublist of it). -/
theorem filter_displays_exactly_matching_rows (s : GuiState)
    (h : s.search_var ≠ "") :
    displayed (filter_rows s) =
      s.malware_rows.filter
        (fun row => row.fieldStrs.any
          (fun v => pyIn (pyLower (pyStrip s.search_var)) (pyLower v))) ∧
    List.Sublist (displayed (filter_rows s)) s.malware_rows := by
  rw [displayed_filter_rows]
  by_cases hc : pyLower (pyStrip s.search_var) = ""
  · constructor
    · rw [visibleRows]
      simp only [hc, if_pos rfl]
      symm
      apply List.filter_eq_self.mpr
      intro r _
      simp [Row.fieldStrs, pyIn_empty_needle]
    · rw [visibleRows]
      simp only [hc, if_pos rfl]
      exact List.Sublist.refl _
  · constructor
    · rw [visibleRows]
      simp only [if_neg hc]
      rfl
    · rw [visibleRows]
      simp only [if_neg hc]
      exact List.filter_sublist _

/-- Witness for C1: with cache `[rowA, rowB]` and filter text `"linux"`,
exactly `rowB` is displayed. -/
theorem c1_witness :
    displayed (filter_rows stLinux) = [rowB] ∧
    List.Sublist (displayed (filter_rows stLinux)) stLinux.malware_rows := by
  have h := filter_displays_exactly_matching_rows stLinux (by decide)
  refine ⟨?_, h.2⟩
  rw [h.1]
  decide

/-- C2: in every reachable state the displayed rows are exactly the
cached rows matching the current filter text (all of them when it is
empty), and `_filter_rows` never changes the cache. -/
theorem displayed_is_filtered_cache_invariant (s : GuiState) (h : Reachable s) :
    displayed s = visibleRows s.search_var s.malware_rows ∧
    (filter_rows s).malware_rows = s.malware_rows := by
  refine ⟨?_, filter_rows_malware_rows s⟩
  rw [displayed, reachable_tree s h, map_snd_pairs]

/-- Witness for C2: the invariant at the reachable state obtained by
loading two rows and typing `"linux"`. -/
theorem c2_witness :
    displayed stReach = visibleRows stReach.search_var stReach.malware_rows ∧
    (filter_rows stReach).malware_rows = stReach.malware_rows :=
  displayed_is_filtered_cache_invariant stReach
    (Reachable.next _ (Event.keystroke "linux")
      (Reachable.init (Except.ok [rowA, rowB])))

/-- C3: when `get_partial_details` raises, `_load_data` returns normally
(no exception escapes the embedding's total function), shows a
`Database Error` box, sets the cache to `[]`, and still re-renders,
leaving an empty table with status `"Loaded 0 entries"`. -/
theorem load_failure_shows_error_and_empties_table (e : String) (s : GuiState) :
    load_data (Except.error e) s =
      ({ s with malware_rows := [], tree := [], selection := [],
                status_var := "Loaded 0 entries", details_button_enabled := false },
       [Effect.showerror "Database Error" e]) := rfl

/-- C4: `_show_selected_details` is a no-op with empty selection; with a
selected row it shows an error box and returns when `get_mal_info`
raises; it shows the informational `"No additional metadata available."`
box (not an error) and returns normally when the result is empty; and it
opens the detail dialog only when the result is non-empty. -/
theorem show_details_outcome_cases (db : Int → Except String (List Detail))
    (s : GuiState) :
    (s.selection = [] → show_selected_details db s = some (s, [])) ∧
    (∀ iid rest n e, s.selection = iid :: rest → pyIntOfStr iid = some n →
      db n = Except.error e →
      show_selected_details db s =
        some (s, [Effect.showerror "Database Error" e])) ∧
    (∀ iid rest n, s.selection = iid :: rest → pyIntOfStr iid = some n →
      db n = Except.ok [] →
      show_selected_details db s =
        some (s, [Effect.showinfo "Malware Info"
          "No additional metadata available."])) ∧
    (∀ iid rest n d ds, s.selection = iid :: rest → pyIntOfStr iid = some n →
      db n = Except.ok (d :: ds) →
      show_selected_details db s =
        some (s, [Effect.showinfo "Malware Info"
          (String.intercalate "\n" (info_lines d))])) := by
  refine ⟨?_, ?_, ?_, ?_⟩
  · intro hsel
    simp [show_selected_details, hsel]
  · intro iid rest n e hsel hid hdb
    simp [show_selected_details, hsel, hid, hdb, handleMalInfo]
  · intro iid rest n hsel hid hdb
    simp [show_selected_details, hsel, hid, hdb, handleMalInfo]
  · intro iid rest n d ds hsel hid hdb
    simp [show_selected_details, hsel, hid, hdb, handleMalInfo]

/-- Witness for C4 (Scenario C): id 1 selected, `get_mal_info` returning
`[]` produces the informational notification and no crash. -/
theorem c4_witness :
    show_selected_details dbEmpty stSel1 =
      some (stSel1, [Effect.showinfo "Malware Info"
        "No additional metadata available."]) :=
  (show_details_outcome_cases dbEmpty stSel1).2.2.1 "1" [] 1 rfl (by decide) rfl

/-- C5: the detail dialog lines are the nine fields, labelled in the
order Name, Type, Version, Author, Language, Date, Architecture,
Platform, Tags; any `None` or empty field is rendered `"N/A"`; in
particular `author = None` gives the line `"Author: N/A"` (index 3). -/
theorem detail_lines_labels_and_na (d : Detail) :
    info_lines d =
      [ "Name: " ++ orNA d.name, "Type: " ++ orNA d.mal_type,
        "Version: " ++ orNA d.version, "Author: " ++ orNA d.author,
        "Language: " ++ orNA d.language, "Date: " ++ orNA d.date,
        "Architecture: " ++ orNA d.architecture, "Platform: " ++ orNA d.platform,
        "Tags: " ++ orNA d.tags ] ∧
    (info_lines d).length = 9 ∧
    (∀ x : Option String, (x = none ∨ x = some "") → orNA x = "N/A") ∧
    (d.author = none → (info_lines d).get? 3 = some "Author: N/A") := by
  refine ⟨rfl, rfl, ?_, ?_⟩
  · rintro x (rfl | rfl) <;> rfl
  · intro ha
    show some ("Author: " ++ orNA d.author) = some "Author: N/A"
    rw [ha]
    rfl

/-- Witness for C5 (Scenario D): a detail tuple with `author = None`
yields the line `"Author: N/A"`. -/
theorem c5_witness : (info_lines dAuthorNone).get? 3 = some "Author: N/A" :=
  (detail_lines_labels_and_na dAuthorNone).2.2.2 rfl

/-- C6: when the filter text strips to the empty string, `_filter_rows`
displays the full cache: it renders exactly `refresh_tree` of the whole
cache. -/
theorem empty_filter_displays_full_cache (s : GuiState)
    (h : pyLower (pyStrip s.search_var) = "") :
    displayed (filter_rows s) = s.malware_rows ∧
    filter_rows s = refresh_tree s.malware_rows s := by
  constructor
  · rw [displayed_filter_rows, visibleRows]
    simp [h]
  · simp only [filter_rows]
    simp [h]

/-- Witness for C6: whitespace-only filter text displays the full
two-row cache. -/
theorem c6_witness :
    displayed (filter_rows stBlank) = stBlank.malware_rows ∧
    filter_rows stBlank = refresh_tree stBlank.malware_rows stBlank :=
  empty_filter_displays_full_cache stBlank (by decide)

/-- C7: `_refresh_tree` is idempotent — rendering the same rows twice
yields exactly the state (table, status count, disabled detail button)
of rendering them once. -/
theorem refresh_tree_idempotent (rows : List Row) (s : GuiState) :
    refresh_tree rows (refresh_tree rows s) = refresh_tree rows s := rfl

/-- C8: after `_on_select` the detail button is enabled iff the selection
is non-empty (it equals the negation of the selection's emptiness), and
every `_refresh_tree` re-render disables the button. -/
theorem details_button_iff_selection (s : GuiState) (rows : List Row) :
    ((on_select s).details_button_enabled = true ↔ s.selection ≠ []) ∧
    (on_select s).details_button_enabled = !s.selection.isEmpty ∧
    (refresh_tree rows s).details_button_enabled = false := by
  refine ⟨?_, rfl, rfl⟩
  simp only [on_select]
  cases hsel : s.selection <;> simp [hsel]

/-- C9: `str`/`int` round-trip for row ids: when the first selected item
id is `str(n)`, `int` parses it back to `n` and `_show_selected_details`
queries the database exactly at `n` (ignoring further selected rows);
`_refresh_tree` stores exactly `str(row.id)` as each inserted row's item
id. -/
theorem first_selected_id_roundtrip (db : Int → Except String (List Detail))
    (s : GuiState) (n : Int) (rest : List String)
    (h : s.selection = pyStrOfInt n :: rest) :
    pyIntOfStr (pyStrOfInt n) = some n ∧
    show_selected_details db s = some (handleMalInfo (db n) s) ∧
    (∀ rows : List Row, ∀ r ∈ rows,
      (pyStrOfInt r.id, r) ∈ (refresh_tree rows s).tree) := by
  refine ⟨pyIntOfStr_pyStrOfInt n, ?_, ?_⟩
  · simp [show_selected_details, h, pyIntOfStr_pyStrOfInt n]
  · intro rows r hr
    exact List.mem_map.mpr ⟨r, hr, rfl⟩

/-- Witness for C9: selection `["2", "1"]` queries the database at id 2. -/
theorem c9_witness :
    pyIntOfStr (pyStrOfInt 2) = some 2 ∧
    show_selected_details dbEmpty stSel2 = some (handleMalInfo (dbEmpty 2) stSel2) :=
  ⟨(first_selected_id_roundtrip dbEmpty stSel2 2 ["1"] (by decide)).1,
   (first_selected_id_roundtrip dbEmpty stSel2 2 ["1"] (by decide)).2.1⟩

/-- C10: whenever `_show_selected_details` returns (any of its outcomes),
the cache, the table contents, the status line and the filter text — in
fact the whole widget state — are unchanged. -/
theorem show_details_preserves_view_state (db : Int → Except String (List Detail))
    (s s2 : GuiState) (effs : List Effect)
    (h : show_selected_details db s = some (s2, effs)) :
    s2.malware_rows = s.malware_rows ∧ s2.tree = s.tree ∧
    s2.status_var = s.status_var ∧ s2.search_var = s.search_var ∧ s2 = s := by
  have h2 : s2 = s := show_selected_details_fst db s (s2, effs) h
  subst h2
  exact ⟨rfl, rfl, rfl, rfl, rfl⟩

/-- Witness for C10: the empty-result outcome on `stSel1` leaves the
state unchanged. -/
theorem c10_witness :
    stSel1.malware_rows = stSel1.malware_rows ∧ stSel1.tree = stSel1.tree ∧
    stSel1.status_var = stSel1.status_var ∧
    stSel1.search_var = stSel1.search_var ∧ stSel1 = stSel1 :=
  show_details_preserves_view_state dbEmpty stSel1 stSel1
    [Effect.showinfo "Malware Info" "No additional metadata available."]
    (by decide)

end TheZooGui
